import Mathlib

/-!
Verification of the hardware-intrinsic metadata header
(src/coreclr/src/jit/hwintrinsic.h) of a JIT compiler backend.

The header declares the record type `HWIntrinsicInfo`, the flag and
category enumerations, and inline static accessors; the registry table
itself and several function bodies live in source files that are not
part of this repository snapshot, so those parts are modelled from the
specification (each such definition says so in its doc comment).

Machine integers: `flags` is a C `unsigned int` bitset; all flag values
used fit far below 2^32 and the only operations are bitwise and-tests,
so it is embedded as `Nat` with `&&&`. Fallible operations (the fatal
assertions of the C++ code) are embedded as `Option`/`Except`.
-/

/-- Embeds `enum HWIntrinsicCategory` (hwintrinsic.h lines 10-42):
the closed 8-value category enumeration. -/
inductive HWIntrinsicCategory : Type where
  | HW_Category_SimpleSIMD
  | HW_Category_IMM
  | HW_Category_Scalar
  | HW_Category_SIMDScalar
  | HW_Category_MemoryLoad
  | HW_Category_MemoryStore
  | HW_Category_Helper
  | HW_Category_Special
deriving DecidableEq, Repr

/-- Embeds `HW_Flag_NoFlag = 0` (hwintrinsic.h line 46). -/
def HW_Flag_NoFlag : Nat := 0

/-- Embeds `HW_Flag_Commutative = 0x1` (hwintrinsic.h line 50). -/
def HW_Flag_Commutative : Nat := 0x1

/-- Embeds `HW_Flag_FullRangeIMM = 0x2` (hwintrinsic.h line 54). -/
def HW_Flag_FullRangeIMM : Nat := 0x2

/-- Embeds `HW_Flag_NoCodeGen = 0x8` (hwintrinsic.h line 58). -/
def HW_Flag_NoCodeGen : Nat := 0x8

/-- Embeds `HW_Flag_UnfixedSIMDSize = 0x10` (hwintrinsic.h line 62). -/
def HW_Flag_UnfixedSIMDSize : Nat := 0x10

/-- Embeds `HW_Flag_MultiIns = 0x20` (hwintrinsic.h line 66). -/
def HW_Flag_MultiIns : Nat := 0x20

/-- Embeds `HW_Flag_NoContainment = 0x40` (hwintrinsic.h line 71). -/
def HW_Flag_NoContainment : Nat := 0x40

/-- Embeds `HW_Flag_CopyUpperBits = 0x80` (hwintrinsic.h line 75). -/
def HW_Flag_CopyUpperBits : Nat := 0x80

/-- Embeds `HW_Flag_BaseTypeFromFirstArg = 0x100` (hwintrinsic.h line 78). -/
def HW_Flag_BaseTypeFromFirstArg : Nat := 0x100

/-- Embeds `HW_Flag_NoFloatingPointUsed = 0x200` (hwintrinsic.h line 81). -/
def HW_Flag_NoFloatingPointUsed : Nat := 0x200

/-- Embeds `HW_Flag_MaybeIMM = 0x400` (hwintrinsic.h line 85). -/
def HW_Flag_MaybeIMM : Nat := 0x400

/-- Embeds `HW_Flag_NoJmpTableIMM = 0x800` (hwintrinsic.h line 89). -/
def HW_Flag_NoJmpTableIMM : Nat := 0x800

/-- Embeds `HW_Flag_BaseTypeFromSecondArg = 0x1000` (hwintrinsic.h line 92). -/
def HW_Flag_BaseTypeFromSecondArg : Nat := 0x1000

/-- Embeds `HW_Flag_SpecialCodeGen = 0x2000` (hwintrinsic.h line 97). -/
def HW_Flag_SpecialCodeGen : Nat := 0x2000

/-- Embeds `HW_Flag_NoRMWSemantics = 0x4000`, defined under `TARGET_XARCH`
(hwintrinsic.h line 102). -/
def HW_Flag_NoRMWSemantics : Nat := 0x4000

/-- Embeds `HW_Flag_HasRMWSemantics = 0x4000`, defined under `TARGET_ARM64`
(hwintrinsic.h line 105); the same bit position as the x86 no-RMW flag. -/
def HW_Flag_HasRMWSemantics : Nat := 0x4000

/-- Embeds `HW_Flag_SpecialImport = 0x8000` (hwintrinsic.h line 113). -/
def HW_Flag_SpecialImport : Nat := 0x8000

/-- Embeds `HW_Flag_MaybeMemoryLoad = 0x10000` (hwintrinsic.h line 117). -/
def HW_Flag_MaybeMemoryLoad : Nat := 0x10000

/-- Embeds `HW_Flag_MaybeMemoryStore = 0x20000` (hwintrinsic.h line 118). -/
def HW_Flag_MaybeMemoryStore : Nat := 0x20000

/-- Modelled from the spec: the `instruction` enumeration (instr.h) is not
under src. Opcodes are opaque identity-only values, embedded as `Nat`,
with `INS_invalid` the explicit no-instruction sentinel used by
`lookupIns` (hwintrinsic.h line 193). -/
def INS_invalid : Nat := 0

/-- Modelled from the spec: the `var_types` enumeration (vartype.h) is not
under src. The spec describes the element-type domain as an ordered,
contiguous range spanning the smallest signed integer type (`TYP_BYTE`)
through double precision (`TYP_DOUBLE`); the header fixes the range to 10
slots (`instruction ins[10]`). Types are embedded as `Nat` ordinals with
the standard JIT ordering, so `TYP_DOUBLE - TYP_BYTE = 9`. -/
def TYP_BYTE : Nat := 3

/-- Modelled from the spec: ordinal of the double-precision element type,
upper end of the contiguous supported range (see `TYP_BYTE`). -/
def TYP_DOUBLE : Nat := 12

/-- Embeds `struct HWIntrinsicInfo` (hwintrinsic.h lines 121-131): one
immutable registry record. The C array `instruction ins[10]` is a list
with its fixed length carried as a proof field. -/
structure HWIntrinsicInfo : Type where
  id : Nat
  name : String
  isa : Nat
  ival : Int
  simdSize : Nat
  numArgs : Int
  ins : List Nat
  ins_length : ins.length = 10
  category : HWIntrinsicCategory
  flags : Nat

/-- Modelled from the spec: the registry table (hwintrinsiclistxarch.h and
hwintrinsic.cpp) is not under src. The spec describes it as the total
ordered collection of records, one per identifier, indexed by identifier;
it is embedded as the list of records in identifier order. -/
structure Registry : Type where
  rows : List HWIntrinsicInfo

namespace HWIntrinsicInfo

/-- Modelled from the spec: the body of `HWIntrinsicInfo::lookup`
(hwintrinsic.cpp) is not under src; hwintrinsic.h line 133 declares it.
Spec 4.1: a total O(1) function over the valid-identifier domain; calling
it with the reserved none/illegal sentinel (ordinal 0) or any value
outside the domain is fatal, never a default record. Valid identifier
`id` names row `id - 1` of the table. -/
def lookup (reg : Registry) (id : Nat) : Option HWIntrinsicInfo :=
  if id = 0 then none else reg.rows.get? (id - 1)

/-- Embeds `HWIntrinsicInfo::lookupId(NamedIntrinsic)`
(hwintrinsic.h lines 158-161): `return lookup(id).id;`. -/
def lookupId (reg : Registry) (id : Nat) : Option Nat :=
  (lookup reg id).map (·.id)

/-- Embeds `HWIntrinsicInfo::lookupSimdSize(NamedIntrinsic)`
(hwintrinsic.h lines 178-181): `return lookup(id).simdSize;`. -/
def lookupSimdSize (reg : Registry) (id : Nat) : Option Nat :=
  (lookup reg id).map (·.simdSize)

/-- Embeds `HWIntrinsicInfo::lookupIns` (hwintrinsic.h lines 188-196):
a type outside `[TYP_BYTE, TYP_DOUBLE]` hits `assert(!"Unexpected type")`,
which halts (fatal); otherwise the record slot at ordinal
`type - TYP_BYTE` is returned. An invalid identifier is fatal inside
`lookup`; an out-of-bounds array read would be undefined behaviour and is
likewise embedded as an error. -/
def lookupIns (reg : Registry) (id : Nat) (type : Nat) : Except String Nat :=
  if type < TYP_BYTE ∨ TYP_DOUBLE < type then
    Except.error "Unexpected type"
  else
    match lookup reg id with
    | none => Except.error "unknown intrinsic id"
    | some r =>
      match r.ins.get? (type - TYP_BYTE) with
      | none => Except.error "instruction array index out of bounds"
      | some i => Except.ok i

/-- Embeds `HWIntrinsicInfo::lookupCategory` (hwintrinsic.h lines 198-201). -/
def lookupCategory (reg : Registry) (id : Nat) : Option HWIntrinsicCategory :=
  (lookup reg id).map (·.category)

/-- Embeds `HWIntrinsicInfo::lookupFlags` (hwintrinsic.h lines 203-206). -/
def lookupFlags (reg : Registry) (id : Nat) : Option Nat :=
  (lookup reg id).map (·.flags)

/-- Embeds `HWIntrinsicInfo::IsCommutative` (hwintrinsic.h lines 210-214). -/
def IsCommutative (reg : Registry) (id : Nat) : Option Bool :=
  (lookupFlags reg id).map (fun flags => (flags &&& HW_Flag_Commutative) != 0)

/-- Embeds `HWIntrinsicInfo::HasFullRangeImm` (hwintrinsic.h lines 216-220). -/
def HasFullRangeImm (reg : Registry) (id : Nat) : Option Bool :=
  (lookupFlags reg id).map (fun flags => (flags &&& HW_Flag_FullRangeIMM) != 0)

/-- Embeds `HWIntrinsicInfo::RequiresCodegen` (hwintrinsic.h lines 222-226). -/
def RequiresCodegen (reg : Registry) (id : Nat) : Option Bool :=
  (lookupFlags reg id).map (fun flags => (flags &&& HW_Flag_NoCodeGen) == 0)

/-- Embeds `HWIntrinsicInfo::HasFixedSimdSize` (hwintrinsic.h lines 228-232). -/
def HasFixedSimdSize (reg : Registry) (id : Nat) : Option Bool :=
  (lookupFlags reg id).map (fun flags => (flags &&& HW_Flag_UnfixedSIMDSize) == 0)

/-- Embeds `HWIntrinsicInfo::GeneratesMultipleIns`
(hwintrinsic.h lines 234-238). -/
def GeneratesMultipleIns (reg : Registry) (id : Nat) : Option Bool :=
  (lookupFlags reg id).map (fun flags => (flags &&& HW_Flag_MultiIns) != 0)

/-- Embeds `HWIntrinsicInfo::SupportsContainment`
(hwintrinsic.h lines 240-244). -/
def SupportsContainment (reg : Registry) (id : Nat) : Option Bool :=
  (lookupFlags reg id).map (fun flags => (flags &&& HW_Flag_NoContainment) == 0)

/-- Embeds `HWIntrinsicInfo::CopiesUpperBits` (hwintrinsic.h lines 246-250). -/
def CopiesUpperBits (reg : Registry) (id : Nat) : Option Bool :=
  (lookupFlags reg id).map (fun flags => (flags &&& HW_Flag_CopyUpperBits) != 0)

/-- Embeds `HWIntrinsicInfo::BaseTypeFromFirstArg`
(hwintrinsic.h lines 252-256). -/
def BaseTypeFromFirstArg (reg : Registry) (id : Nat) : Option Bool :=
  (lookupFlags reg id).map (fun flags => (flags &&& HW_Flag_BaseTypeFromFirstArg) != 0)

/-- Embeds `HWIntrinsicInfo::IsFloatingPointUsed`
(hwintrinsic.h lines 258-262). -/
def IsFloatingPointUsed (reg : Registry) (id : Nat) : Option Bool :=
  (lookupFlags reg id).map (fun flags => (flags &&& HW_Flag_NoFloatingPointUsed) == 0)

/-- Embeds `HWIntrinsicInfo::MaybeImm` (hwintrinsic.h lines 264-268). -/
def MaybeImm (reg : Registry) (id : Nat) : Option Bool :=
  (lookupFlags reg id).map (fun flags => (flags &&& HW_Flag_MaybeIMM) != 0)

/-- Embeds `HWIntrinsicInfo::MaybeMemoryLoad` (hwintrinsic.h lines 270-274). -/
def MaybeMemoryLoad (reg : Registry) (id : Nat) : Option Bool :=
  (lookupFlags reg id).map (fun flags => (flags &&& HW_Flag_MaybeMemoryLoad) != 0)

/-- Embeds `HWIntrinsicInfo::MaybeMemoryStore` (hwintrinsic.h lines 276-280). -/
def MaybeMemoryStore (reg : Registry) (id : Nat) : Option Bool :=
  (lookupFlags reg id).map (fun flags => (flags &&& HW_Flag_MaybeMemoryStore) != 0)

/-- Embeds `HWIntrinsicInfo::NoJmpTableImm` (hwintrinsic.h lines 282-286). -/
def NoJmpTableImm (reg : Registry) (id : Nat) : Option Bool :=
  (lookupFlags reg id).map (fun flags => (flags &&& HW_Flag_NoJmpTableIMM) != 0)

/-- Embeds `HWIntrinsicInfo::BaseTypeFromSecondArg`
(hwintrinsic.h lines 288-292). -/
def BaseTypeFromSecondArg (reg : Registry) (id : Nat) : Option Bool :=
  (lookupFlags reg id).map (fun flags => (flags &&& HW_Flag_BaseTypeFromSecondArg) != 0)

/-- Embeds `HWIntrinsicInfo::HasSpecialCodegen` (hwintrinsic.h lines 294-298). -/
def HasSpecialCodegen (reg : Registry) (id : Nat) : Option Bool :=
  (lookupFlags reg id).map (fun flags => (flags &&& HW_Flag_SpecialCodeGen) != 0)

/-- Embeds `HWIntrinsicInfo::HasRMWSemantics` as compiled for
`TARGET_XARCH` (hwintrinsic.h lines 300-304):
`return (flags & HW_Flag_NoRMWSemantics) == 0;`. -/
def HasRMWSemantics_xarch (reg : Registry) (id : Nat) : Option Bool :=
  (lookupFlags reg id).map (fun flags => (flags &&& HW_Flag_NoRMWSemantics) == 0)

/-- Embeds `HWIntrinsicInfo::HasRMWSemantics` as compiled for
`TARGET_ARM64` (hwintrinsic.h lines 300-302, 305-306):
`return (flags & HW_Flag_HasRMWSemantics) != 0;`. -/
def HasRMWSemantics_arm64 (reg : Registry) (id : Nat) : Option Bool :=
  (lookupFlags reg id).map (fun flags => (flags &&& HW_Flag_HasRMWSemantics) != 0)

/-- Embeds `HWIntrinsicInfo::HasSpecialImport` (hwintrinsic.h lines 312-316). -/
def HasSpecialImport (reg : Registry) (id : Nat) : Option Bool :=
  (lookupFlags reg id).map (fun flags => (flags &&& HW_Flag_SpecialImport) != 0)

/-- Modelled from the spec: the body of
`HWIntrinsicInfo::lookupImmUpperBound` (hwintrinsicxarch.cpp) is not
under src; hwintrinsic.h line 144 declares it. Spec 4.4: the maximum
legal immediate for immediate-category intrinsics (calling it outside
that category is a programmer error, hence fatal); the
full-range-immediate flag legalizes the entire 0-255 byte range, so the
bound is exactly 255; otherwise the bound is the narrower,
intrinsic-specific value, supplied here by the parameter `narrow`. -/
def lookupImmUpperBound (narrow : Nat → Int) (reg : Registry) (id : Nat) :
    Option Int :=
  match lookup reg id with
  | none => none
  | some r =>
    if r.category = HWIntrinsicCategory.HW_Category_IMM then
      if (r.flags &&& HW_Flag_FullRangeIMM) != 0 then some 255
      else some (narrow id)
    else none

/-- Modelled from the spec: the body of `HWIntrinsicInfo::isInImmRange`
(hwintrinsicxarch.cpp) is not under src; hwintrinsic.h line 147 declares
it. Spec 4.4: a value is a legal immediate exactly when it lies in
`[0, immediateUpperBound(id)]` — full-range-immediate-legal legalizes the
entire 0-255 byte range, the narrower intrinsic-specific bound applies
otherwise. -/
def isInImmRange (narrow : Nat → Int) (reg : Registry) (id : Nat)
    (ival : Int) : Option Bool :=
  (lookupImmUpperBound narrow reg id).map
    (fun bound => decide (ival ≤ bound) && decide (0 ≤ ival))

/-- Modelled from the spec: the body of the signature-sensitive
`HWIntrinsicInfo::lookupSimdSize(Compiler*, NamedIntrinsic,
CORINFO_SIG_INFO*)` (hwintrinsicxarch.cpp) is not under src;
hwintrinsic.h line 141 declares it. Spec 4.4 resolveSimdWidth: for
size-polymorphic intrinsics (unfixed-SIMD-size flag set, i.e.
`HasFixedSimdSize` false) the width is derived from the concrete
signature type argument, embedded here as `sigWidth`, the byte width of
that argument; for fixed-size intrinsics the table value is returned
unchanged. -/
def lookupSimdSizeSig (reg : Registry) (id : Nat) (sigWidth : Nat) :
    Option Nat :=
  match HasFixedSimdSize reg id with
  | none => none
  | some true => lookupSimdSize reg id
  | some false => some sigWidth

/-- Modelled from the spec: the body of
`HWIntrinsicInfo::lookupFloatingComparisonForSwappedArgs`
(hwintrinsicxarch.cpp) is not under src; hwintrinsic.h line 153 declares
it. Spec 4.4: returns the predicate preserving comparison semantics when
operand order is swapped — each less-than style predicate exchanges with
the matching greater-than style predicate of the same
ordered/unordered-signaling/nonsignaling variant, and predicates with no
order-dependent counterpart map to themselves. Codes are the `_CMP_*`
table of hwintrinsic.h lines 320-356. -/
def lookupFloatingComparisonForSwappedArgs (comparison : Nat) : Nat :=
  match comparison with
  | 0x01 => 0x0E  -- _CMP_LT_OS  <-> _CMP_GT_OS
  | 0x0E => 0x01
  | 0x02 => 0x0D  -- _CMP_LE_OS  <-> _CMP_GE_OS
  | 0x0D => 0x02
  | 0x05 => 0x0A  -- _CMP_NLT_US <-> _CMP_NGT_US
  | 0x0A => 0x05
  | 0x06 => 0x09  -- _CMP_NLE_US <-> _CMP_NGE_US
  | 0x09 => 0x06
  | 0x11 => 0x1E  -- _CMP_LT_OQ  <-> _CMP_GT_OQ
  | 0x1E => 0x11
  | 0x12 => 0x1D  -- _CMP_LE_OQ  <-> _CMP_GE_OQ
  | 0x1D => 0x12
  | 0x15 => 0x1A  -- _CMP_NLT_UQ <-> _CMP_NGT_UQ
  | 0x1A => 0x15
  | 0x16 => 0x19  -- _CMP_NLE_UQ <-> _CMP_NGE_UQ
  | 0x19 => 0x16
  | c => c

/-- The 16 comparison predicate codes with an order-dependent
counterpart: the less-than, less-than-or-equal, greater-than and
greater-than-or-equal relations and their negations, in every
ordered/unordered-signaling/nonsignaling variant of the `_CMP_*` table
(hwintrinsic.h lines 320-356). The remaining 16 codes (equal, not-equal,
ordered, unordered, false, true) are symmetric in their operands. -/
def hasOrderDependentCounterpart (comparison : Nat) : Bool :=
  match comparison with
  | 0x01 | 0x02 | 0x05 | 0x06 | 0x09 | 0x0A | 0x0D | 0x0E => true
  | 0x11 | 0x12 | 0x15 | 0x16 | 0x19 | 0x1A | 0x1D | 0x1E => true
  | _ => false

end HWIntrinsicInfo

namespace HWIntrinsicInfo

/-- Helper for the registry identifier invariant: the records of `rows`
carry consecutive id fields starting at `n`. -/
def idsFrom (n : Nat) : List HWIntrinsicInfo → Bool
  | [] => true
  | r :: rs => (r.id == n) && idsFrom (n + 1) rs

/-- Modelled from the spec: the registry table contents are not under
src. Spec 3 invariant — exactly one record per identifier, the registry
is the total ordered collection indexed by identifier — so row `i`
carries identifier `i + 1` (ordinal 0 is the reserved none/illegal
sentinel). -/
def registryIdsWF (reg : Registry) : Bool :=
  idsFrom 1 reg.rows

/-- Modelled from the spec: the registry table contents are not under
src. Spec 8 invariant (and the comment at `HW_Flag_NoContainment`,
hwintrinsic.h lines 68-71): every record of memory-load or memory-store
category carries the no-containment flag. -/
def memoryNoContainmentWF (reg : Registry) : Bool :=
  reg.rows.all (fun r =>
    if r.category = HWIntrinsicCategory.HW_Category_MemoryLoad ∨
        r.category = HWIntrinsicCategory.HW_Category_MemoryStore then
      (r.flags &&& HW_Flag_NoContainment) != 0
    else true)

end HWIntrinsicInfo

/-- A small concrete registry used to exercise the definitions: a
flag-less plain SIMD record, a full-range immediate record, a memory-load
record carrying the no-containment flag, and a size-polymorphic record. -/
def sampleRowSimd : HWIntrinsicInfo :=
  { id := 1, name := "Sse2_Add", isa := 1, ival := 0, simdSize := 16,
    numArgs := 2, ins := [1, 2, 3, 4, 5, 6, 7, 8, 9, 10], ins_length := rfl,
    category := HWIntrinsicCategory.HW_Category_SimpleSIMD,
    flags := HW_Flag_NoFlag }

/-- Concrete immediate-category record with the full-range immediate
flag (see `sampleRowSimd`). -/
def sampleRowImm : HWIntrinsicInfo :=
  { id := 2, name := "Sse2_Shuffle", isa := 1, ival := 0, simdSize := 16,
    numArgs := 3, ins := [0, 0, 0, 0, 0, 0, 0, 0, 0, 0], ins_length := rfl,
    category := HWIntrinsicCategory.HW_Category_IMM,
    flags := HW_Flag_FullRangeIMM }

/-- Concrete memory-load record carrying the no-containment flag
(see `sampleRowSimd`). -/
def sampleRowMem : HWIntrinsicInfo :=
  { id := 3, name := "Sse2_LoadVector128", isa := 1, ival := 0,
    simdSize := 16, numArgs := 1,
    ins := [0, 0, 0, 0, 0, 0, 0, 0, 0, 0], ins_length := rfl,
    category := HWIntrinsicCategory.HW_Category_MemoryLoad,
    flags := HW_Flag_NoContainment }

/-- Concrete size-polymorphic record, unfixed-SIMD-size flag set
(see `sampleRowSimd`). -/
def sampleRowUnfixed : HWIntrinsicInfo :=
  { id := 4, name := "Avx_ExtractVector128", isa := 2, ival := 0,
    simdSize := 0, numArgs := 2,
    ins := [0, 0, 0, 0, 0, 0, 0, 0, 0, 0], ins_length := rfl,
    category := HWIntrinsicCategory.HW_Category_SimpleSIMD,
    flags := HW_Flag_UnfixedSIMDSize }

/-- The concrete sample registry holding the four sample records in
identifier order. -/
def sampleRegistry : Registry :=
  ⟨[sampleRowSimd, sampleRowImm, sampleRowMem, sampleRowUnfixed]⟩

namespace HWIntrinsicInfo

/-- C1: on the x86 family `HasRMWSemantics` is true exactly when the
no-RMW flag bit 0x4000 is absent from the record flag set; on the ARM64
family it is true exactly when the has-RMW bit 0x4000 is present; so a
record with no RMW-related flag reports true on x86 and false on ARM64. -/
theorem hasRMWSemantics_polarity (reg : Registry) (id : Nat)
    (r : HWIntrinsicInfo) (h : lookup reg id = some r) :
    (HasRMWSemantics_xarch reg id = some true ↔
      r.flags &&& HW_Flag_NoRMWSemantics = 0) ∧
    (HasRMWSemantics_arm64 reg id = some true ↔
      r.flags &&& HW_Flag_HasRMWSemantics ≠ 0) ∧
    (r.flags = 0 →
      HasRMWSemantics_xarch reg id = some true ∧
      HasRMWSemantics_arm64 reg id = some false) := by
  unfold HasRMWSemantics_xarch HasRMWSemantics_arm64 lookupFlags
  rw [h]
  refine ⟨?_, ?_, ?_⟩
  · simp
  · simp [bne_iff_ne]
  · intro h0
    simp [h0, HW_Flag_NoRMWSemantics, HW_Flag_HasRMWSemantics]

/-- Witness for C1 at the flag-less sample record. -/
theorem hasRMWSemantics_polarity_witness :
    HasRMWSemantics_xarch sampleRegistry 1 = some true ∧
    HasRMWSemantics_arm64 sampleRegistry 1 = some false :=
  (hasRMWSemantics_polarity sampleRegistry 1 sampleRowSimd rfl).2.2 rfl

/-- C2: `lookupIns` on an element type below `TYP_BYTE` or above
`TYP_DOUBLE` is fatal for every identifier — it hits the assertion
`assert(!"Unexpected type")` and never returns an instruction value. -/
theorem lookupIns_out_of_range_fatal (reg : Registry) (id : Nat)
    (type : Nat) (h : type < TYP_BYTE ∨ TYP_DOUBLE < type) :
    lookupIns reg id type = Except.error "Unexpected type" := by
  unfold lookupIns
  rw [if_pos h]

/-- Witness for C2 at types 0 (below the range) and 13 (above it). -/
theorem lookupIns_out_of_range_fatal_witness :
    lookupIns sampleRegistry 1 0 = Except.error "Unexpected type" ∧
    lookupIns sampleRegistry 1 13 = Except.error "Unexpected type" :=
  ⟨lookupIns_out_of_range_fatal sampleRegistry 1 0 (Or.inl (by decide)),
   lookupIns_out_of_range_fatal sampleRegistry 1 13 (Or.inr (by decide))⟩

/-- C3: `lookupFloatingComparisonForSwappedArgs` is a total involution
over the full 32-value comparison predicate domain — applying it twice
yields the original code — and every predicate with no order-dependent
counterpart maps to itself. -/
theorem swappedComparison_involutive (p : Nat) (h : p < 32) :
    lookupFloatingComparisonForSwappedArgs
      (lookupFloatingComparisonForSwappedArgs p) = p ∧
    (hasOrderDependentCounterpart p = false →
      lookupFloatingComparisonForSwappedArgs p = p) := by
  interval_cases p <;> exact ⟨by decide, by decide⟩

/-- Witness for C3 at the order-dependent code 0x01 and the symmetric
code 0x00. -/
theorem swappedComparison_involutive_witness :
    lookupFloatingComparisonForSwappedArgs
      (lookupFloatingComparisonForSwappedArgs 0x01) = 0x01 ∧
    lookupFloatingComparisonForSwappedArgs 0x00 = 0x00 :=
  ⟨(swappedComparison_involutive 0x01 (by decide)).1,
   (swappedComparison_involutive 0x00 (by decide)).2 rfl⟩

/-- Helper: when `idsFrom n l` holds, the record at position `i` of `l`
carries identifier `n + i`. -/
theorem idsFrom_get? (l : List HWIntrinsicInfo) (n : Nat)
    (h : idsFrom n l = true) :
    ∀ i a, l.get? i = some a → a.id = n + i := by
  induction l generalizing n with
  | nil => intro i a ha; exact absurd ha (by simp)
  | cons r rs ih =>
    rw [idsFrom, Bool.and_eq_true, beq_iff_eq] at h
    intro i a ha
    cases i with
    | zero =>
      simp only [List.get?] at ha
      cases ha
      simpa using h.1
    | succ j =>
      simp only [List.get?] at ha
      have := ih (n + 1) h.2 j a ha
      omega

/-- C4: in a registry satisfying the identifier invariant, every valid
identifier (nonzero and inside the table domain) retrieves a record whose
id field is that same identifier: `lookup(id).id == id`. -/
theorem lookup_id_roundtrip (reg : Registry) (id : Nat)
    (hwf : registryIdsWF reg = true) (h0 : id ≠ 0)
    (hlt : id - 1 < reg.rows.length) :
    lookupId reg id = some id := by
  unfold lookupId lookup
  rw [if_neg h0]
  obtain ⟨r, hr⟩ : ∃ r, reg.rows.get? (id - 1) = some r :=
    ⟨_, List.get?_eq_get hlt⟩
  rw [hr]
  have hid := idsFrom_get? reg.rows 1 hwf (id - 1) r hr
  have hrid : r.id = id := by omega
  show some r.id = some id
  rw [hrid]

/-- Witness for C4 at every identifier of the sample registry. -/
theorem lookup_id_roundtrip_witness :
    lookupId sampleRegistry 1 = some 1 ∧
    lookupId sampleRegistry 2 = some 2 ∧
    lookupId sampleRegistry 3 = some 3 ∧
    lookupId sampleRegistry 4 = some 4 :=
  ⟨lookup_id_roundtrip sampleRegistry 1 rfl (by decide) (by decide),
   lookup_id_roundtrip sampleRegistry 2 rfl (by decide) (by decide),
   lookup_id_roundtrip sampleRegistry 3 rfl (by decide) (by decide),
   lookup_id_roundtrip sampleRegistry 4 rfl (by decide) (by decide)⟩

/-- C5: in a registry satisfying the documented memory-containment
invariant, every identifier whose record category is memory-load or
memory-store has `SupportsContainment(id) = false`, i.e. the
no-containment flag bit is set on every such record. -/
theorem memory_category_no_containment (reg : Registry) (id : Nat)
    (r : HWIntrinsicInfo) (hwf : memoryNoContainmentWF reg = true)
    (h : lookup reg id = some r)
    (hc : r.category = HWIntrinsicCategory.HW_Category_MemoryLoad ∨
      r.category = HWIntrinsicCategory.HW_Category_MemoryStore) :
    SupportsContainment reg id = some false := by
  have hmem : r ∈ reg.rows := by
    unfold lookup at h
    by_cases h0 : id = 0
    · rw [if_pos h0] at h; exact absurd h (by simp)
    · rw [if_neg h0] at h; exact List.get?_mem h
  have hflag := List.all_eq_true.mp hwf r hmem
  rw [if_pos hc] at hflag
  have hne : r.flags &&& HW_Flag_NoContainment ≠ 0 := by
    simpa [bne_iff_ne] using hflag
  unfold SupportsContainment lookupFlags
  rw [h]
  simp [hne]

/-- Witness for C5 at the sample memory-load record. -/
theorem memory_category_no_containment_witness :
    SupportsContainment sampleRegistry 3 = some false :=
  memory_category_no_containment sampleRegistry 3 sampleRowMem rfl rfl
    (Or.inl rfl)

/-- Helper: unfolding of `lookupImmUpperBound` at a successfully
retrieved record. -/
theorem immUpperBound_eq (narrow : Nat → Int) (reg : Registry) (id : Nat)
    (r : HWIntrinsicInfo) (h : lookup reg id = some r) :
    lookupImmUpperBound narrow reg id =
      if r.category = HWIntrinsicCategory.HW_Category_IMM then
        if (r.flags &&& HW_Flag_FullRangeIMM != 0) = true then some 255
        else some (narrow id)
      else none := by
  unfold lookupImmUpperBound
  rw [h]

/-- C6: for every immediate-category identifier the immediate upper bound
lies in the interval 0 to 255, and when the full-range-immediate flag is
set the bound equals exactly 255; the intrinsic-specific narrow bound is
assumed to lie in the byte range, as the spec states for the table. -/
theorem immUpperBound_range (narrow : Nat → Int) (reg : Registry)
    (id : Nat) (r : HWIntrinsicInfo)
    (hn : ∀ i, 0 ≤ narrow i ∧ narrow i ≤ 255)
    (h : lookup reg id = some r)
    (hc : r.category = HWIntrinsicCategory.HW_Category_IMM) :
    ∃ bound, lookupImmUpperBound narrow reg id = some bound ∧
      0 ≤ bound ∧ bound ≤ 255 ∧
      (r.flags &&& HW_Flag_FullRangeIMM ≠ 0 → bound = 255) := by
  rw [immUpperBound_eq narrow reg id r h, if_pos hc]
  by_cases hf : r.flags &&& HW_Flag_FullRangeIMM = 0
  · rw [if_neg (by simp [bne_iff_ne, hf])]
    exact ⟨narrow id, rfl, (hn id).1, (hn id).2, fun hne => absurd hf hne⟩
  · rw [if_pos (by simpa [bne_iff_ne] using hf)]
    exact ⟨255, rfl, by norm_num, by norm_num, fun hne => rfl⟩

/-- Witness for C6 at the sample full-range immediate record. -/
theorem immUpperBound_range_witness :
    ∃ bound,
      lookupImmUpperBound (fun _ => (0 : Int)) sampleRegistry 2 =
        some bound ∧
      0 ≤ bound ∧ bound ≤ 255 ∧
      (sampleRowImm.flags &&& HW_Flag_FullRangeIMM ≠ 0 → bound = 255) :=
  immUpperBound_range (fun _ => (0 : Int)) sampleRegistry 2 sampleRowImm
    (fun _ => ⟨by norm_num, by norm_num⟩) rfl rfl

/-- C7: for every immediate-category identifier with the
full-range-immediate flag set, the immediate legality check accepts every
value between 0 and 255 and rejects -1 and 256. -/
theorem fullRangeImm_legality (narrow : Nat → Int) (reg : Registry)
    (id : Nat) (r : HWIntrinsicInfo) (h : lookup reg id = some r)
    (hc : r.category = HWIntrinsicCategory.HW_Category_IMM)
    (hf : r.flags &&& HW_Flag_FullRangeIMM ≠ 0) :
    (∀ v : Int, 0 ≤ v → v ≤ 255 →
      isInImmRange narrow reg id v = some true) ∧
    isInImmRange narrow reg id (-1) = some false ∧
    isInImmRange narrow reg id 256 = some false := by
  have hb : lookupImmUpperBound narrow reg id = some 255 := by
    rw [immUpperBound_eq narrow reg id r h, if_pos hc,
      if_pos (by simpa [bne_iff_ne] using hf)]
  unfold isInImmRange
  rw [hb]
  refine ⟨fun v h0 h255 => ?_, by norm_num, by norm_num⟩
  simp [h0, h255]

/-- Witness for C7 at the sample full-range immediate record, checked at
the values 0, 255, -1 and 256. -/
theorem fullRangeImm_legality_witness :
    isInImmRange (fun _ => (0 : Int)) sampleRegistry 2 0 = some true ∧
    isInImmRange (fun _ => (0 : Int)) sampleRegistry 2 255 = some true ∧
    isInImmRange (fun _ => (0 : Int)) sampleRegistry 2 (-1) = some false ∧
    isInImmRange (fun _ => (0 : Int)) sampleRegistry 2 256 = some false :=
  ⟨(fullRangeImm_legality (fun _ => (0 : Int)) sampleRegistry 2
      sampleRowImm rfl rfl (by decide)).1 0 (by norm_num) (by norm_num),
   (fullRangeImm_legality (fun _ => (0 : Int)) sampleRegistry 2
      sampleRowImm rfl rfl (by decide)).1 255 (by norm_num) (by norm_num),
   (fullRangeImm_legality (fun _ => (0 : Int)) sampleRegistry 2
      sampleRowImm rfl rfl (by decide)).2.1,
   (fullRangeImm_legality (fun _ => (0 : Int)) sampleRegistry 2
      sampleRowImm rfl rfl (by decide)).2.2⟩

/-- C8: the signature-sensitive SIMD size lookup returns the width of the
concrete signature type argument for every size-polymorphic identifier
(unfixed-SIMD-size flag set), regardless of the table value, and returns
the table value unchanged for every fixed-size identifier. -/
theorem lookupSimdSizeSig_widths (reg : Registry) (id : Nat)
    (r : HWIntrinsicInfo) (h : lookup reg id = some r) :
    (r.flags &&& HW_Flag_UnfixedSIMDSize ≠ 0 →
      ∀ sigWidth, lookupSimdSizeSig reg id sigWidth = some sigWidth) ∧
    (r.flags &&& HW_Flag_UnfixedSIMDSize = 0 →
      ∀ sigWidth, lookupSimdSizeSig reg id sigWidth = some r.simdSize) := by
  constructor
  · intro hu sigWidth
    have hfalse : ((r.flags &&& HW_Flag_UnfixedSIMDSize) == 0) = false := by
      simpa using hu
    simp [lookupSimdSizeSig, HasFixedSimdSize, lookupFlags, h, hfalse]
  · intro hu sigWidth
    simp [lookupSimdSizeSig, HasFixedSimdSize, lookupSimdSize, lookupFlags,
      h, hu]

/-- Witness for C8: the size-polymorphic sample record follows the
signature width 256 and 128, the fixed-size sample record keeps its table
width 16. -/
theorem lookupSimdSizeSig_widths_witness :
    lookupSimdSizeSig sampleRegistry 4 256 = some 256 ∧
    lookupSimdSizeSig sampleRegistry 4 128 = some 128 ∧
    lookupSimdSizeSig sampleRegistry 1 128 = some 16 :=
  ⟨(lookupSimdSizeSig_widths sampleRegistry 4 sampleRowUnfixed rfl).1
      (by decide) 256,
   (lookupSimdSizeSig_widths sampleRegistry 4 sampleRowUnfixed rfl).1
      (by decide) 128,
   (lookupSimdSizeSig_widths sampleRegistry 1 sampleRowSimd rfl).2
      (by decide) 128⟩

/-- C9: the four negatively-stored flag predicates answer true exactly
when their flag bit is absent, and on a record with the empty flag set
those four answer true while every positively-phrased flag predicate
answers false. -/
theorem flag_predicate_polarity (reg : Registry) (id : Nat)
    (r : HWIntrinsicInfo) (h : lookup reg id = some r) :
    (RequiresCodegen reg id = some true ↔
      r.flags &&& HW_Flag_NoCodeGen = 0) ∧
    (HasFixedSimdSize reg id = some true ↔
      r.flags &&& HW_Flag_UnfixedSIMDSize = 0) ∧
    (SupportsContainment reg id = some true ↔
      r.flags &&& HW_Flag_NoContainment = 0) ∧
    (IsFloatingPointUsed reg id = some true ↔
      r.flags &&& HW_Flag_NoFloatingPointUsed = 0) ∧
    (r.flags = 0 →
      RequiresCodegen reg id = some true ∧
      HasFixedSimdSize reg id = some true ∧
      SupportsContainment reg id = some true ∧
      IsFloatingPointUsed reg id = some true ∧
      IsCommutative reg id = some false ∧
      HasFullRangeImm reg id = some false ∧
      GeneratesMultipleIns reg id = some false ∧
      CopiesUpperBits reg id = some false ∧
      BaseTypeFromFirstArg reg id = some false ∧
      MaybeImm reg id = some false ∧
      MaybeMemoryLoad reg id = some false ∧
      MaybeMemoryStore reg id = some false ∧
      NoJmpTableImm reg id = some false ∧
      BaseTypeFromSecondArg reg id = some false ∧
      HasSpecialCodegen reg id = some false ∧
      HasSpecialImport reg id = some false ∧
      HasRMWSemantics_arm64 reg id = some false) := by
  simp only [RequiresCodegen, HasFixedSimdSize, SupportsContainment,
    IsFloatingPointUsed, IsCommutative, HasFullRangeImm,
    GeneratesMultipleIns, CopiesUpperBits, BaseTypeFromFirstArg, MaybeImm,
    MaybeMemoryLoad, MaybeMemoryStore, NoJmpTableImm,
    BaseTypeFromSecondArg, HasSpecialCodegen, HasSpecialImport,
    HasRMWSemantics_arm64, lookupFlags, h]
  refine ⟨by simp, by simp, by simp, by simp, fun h0 => ?_⟩
  simp [h0]

/-- Witness for C9 at the flag-less sample record. -/
theorem flag_predicate_polarity_witness :
    RequiresCodegen sampleRegistry 1 = some true ∧
    HasFixedSimdSize sampleRegistry 1 = some true ∧
    SupportsContainment sampleRegistry 1 = some true ∧
    IsFloatingPointUsed sampleRegistry 1 = some true ∧
    IsCommutative sampleRegistry 1 = some false ∧
    HasFullRangeImm sampleRegistry 1 = some false ∧
    GeneratesMultipleIns sampleRegistry 1 = some false ∧
    CopiesUpperBits sampleRegistry 1 = some false ∧
    BaseTypeFromFirstArg sampleRegistry 1 = some false ∧
    MaybeImm sampleRegistry 1 = some false ∧
    MaybeMemoryLoad sampleRegistry 1 = some false ∧
    MaybeMemoryStore sampleRegistry 1 = some false ∧
    NoJmpTableImm sampleRegistry 1 = some false ∧
    BaseTypeFromSecondArg sampleRegistry 1 = some false ∧
    HasSpecialCodegen sampleRegistry 1 = some false ∧
    HasSpecialImport sampleRegistry 1 = some false ∧
    HasRMWSemantics_arm64 sampleRegistry 1 = some false :=
  (flag_predicate_polarity sampleRegistry 1 sampleRowSimd rfl).2.2.2.2 rfl

/-- C10: for every element type inside the supported range the
instruction lookup returns exactly the record slot at ordinal
`type - TYP_BYTE`, an index that always lies within the bounds of the
fixed 10-element instruction array. -/
theorem lookupIns_in_range_bounds (reg : Registry) (id : Nat)
    (r : HWIntrinsicInfo) (type : Nat) (h : lookup reg id = some r)
    (h1 : TYP_BYTE ≤ type) (h2 : type ≤ TYP_DOUBLE) :
    type - TYP_BYTE < 10 ∧
    ∃ hidx : type - TYP_BYTE < r.ins.length,
      lookupIns reg id type =
        Except.ok (r.ins.get ⟨type - TYP_BYTE, hidx⟩) := by
  have h9 : type - TYP_BYTE < 10 := by
    simp only [TYP_BYTE, TYP_DOUBLE] at h1 h2 ⊢
    omega
  have hidx : type - TYP_BYTE < r.ins.length := by
    rw [r.ins_length]; exact h9
  refine ⟨h9, hidx, ?_⟩
  have hstep : lookupIns reg id type =
      match r.ins.get? (type - TYP_BYTE) with
      | none => Except.error "instruction array index out of bounds"
      | some i => Except.ok i := by
    unfold lookupIns
    rw [if_neg (not_or.mpr ⟨Nat.not_lt.mpr h1, Nat.not_lt.mpr h2⟩), h]
  rw [hstep, List.get?_eq_get hidx]

/-- Witness for C10 at the double-precision ordinal, the upper end of
the supported range (array slot 9). -/
theorem lookupIns_in_range_bounds_witness :
    12 - TYP_BYTE < 10 ∧
    ∃ hidx : 12 - TYP_BYTE < sampleRowSimd.ins.length,
      lookupIns sampleRegistry 1 12 =
        Except.ok (sampleRowSimd.ins.get ⟨12 - TYP_BYTE, hidx⟩) :=
  lookupIns_in_range_bounds sampleRegistry 1 sampleRowSimd 12 rfl
    (by decide) (by decide)

end HWIntrinsicInfo
